import Mathlib

/-!
Verification of `lsst_build`'s build orchestrator
(`src/python/lsst/ci/build.py`) via a shallow embedding.

The embedding models the pure decision structure of the Python code:
products, the EUPS package-manager state the code observes, the per-unit
build step (`Builder._build_product_if_needed`), the orchestration loop
(`Builder.build`), the output-draining loop (`Builder._build_product`,
lines 260-275), status persistence (`Builder.write_status`), tag
declaration (`declare_eups_tag`), the GitHub status notifier
(`Builder.post_github_status`) and the tail of `Builder.run`.
External effects (file writes, child processes, HTTP, the terminal) are
represented by explicit data in the returned values: a generated-script
flag, a log of printed lines, poll schedules, and so on.
-/

namespace LsstBuild

/-- A build unit as read from the manifest: `models.Product` with the three
fields serialized by `product_representer` (name, sha1, version). -/
structure Product where
  name : String
  sha1 : String
  version : String
deriving DecidableEq, Repr

/-- An installed product as EUPS reports it: `eups_prod` has a `dir`
(install directory) and a `tags` collection, the two attributes the
orchestrator reads. -/
structure EupsProd where
  dir : String
  tags : List String
deriving DecidableEq, Repr

/-- What the external world does for one unit: either
`self.eups.getProduct` succeeds (the product is already installed, with
the given tag list), or it raises `eups.ProductNotFound` and the build
script is run, exiting with the given code; on exit code 0 the
post-build `getProduct` lookup returns the given fresh handle. -/
inductive UnitBehavior where
  | installed (prod : EupsProd)
  | notInstalled (exitCode : Int) (freshProd : EupsProd)
deriving DecidableEq, Repr

/-- The terminal line `ProductProgressReporter.report_result` ends with:
`"(already installed)."` when `logfile is None`, the multi-line error
block when `retcode` is nonzero, `"ok (...)."` otherwise. -/
inductive ResultLine where
  | alreadyInstalled
  | ok
  | error (retcode : Int)
deriving DecidableEq, Repr

/-- `ProductProgressReporter.report_result` (build.py lines 98-121):
the branch on `logfile is None`, then on `retcode`. -/
def reportResult (retcode : Int) (logfile : Option String) : ResultLine :=
  match logfile with
  | none => .alreadyInstalled
  | some _ => if retcode ≠ 0 then .error retcode else .ok

/-- Result of the tail of `Builder._build_product` (lines 277-285):
the returned triple plus the two side effects of the success branch
(the `getProduct` lookup and the `shutil.copy2` of the log file into
the product directory). -/
structure BPFinish where
  eups_prod : Option EupsProd
  retcode : Int
  logfile : String
  lookupPerformed : Bool
  logCopiedTo : Option String
deriving DecidableEq, Repr

/-- `Builder._build_product` lines 277-285: `retcode = process.poll()`;
`if not retcode:` look the product up and copy the log into its
directory, `else` `eups_prod = None`; return `(eups_prod, retcode,
logfile)`. `not retcode` on an integer exit code is `retcode == 0`. -/
def buildProductFinish (prodHandle : EupsProd) (retcode : Int)
    (logfile : String) : BPFinish :=
  if retcode = 0 then
    { eups_prod := some prodHandle, retcode := retcode, logfile := logfile,
      lookupPerformed := true, logCopiedTo := some prodHandle.dir }
  else
    { eups_prod := none, retcode := retcode, logfile := logfile,
      lookupPerformed := false, logCopiedTo := none }

/-- Outcome of `Builder._build_product_if_needed` for one unit: its
boolean return value, the `(retcode, logfile)` pair passed to
`report_result`, the terminal line printed, whether a build script was
generated (`_build_product` ran), and whether `self.eups.declare` was
invoked with the build tag (`_tag_product` with a truthy tag). -/
structure UnitResult where
  ok : Bool
  retcode : Int
  logfile : Option String
  line : ResultLine
  scriptGenerated : Bool
  declaredTag : Bool
deriving DecidableEq, Repr

/-- `Builder._build_product_if_needed` (lines 287-302): try
`getProduct` giving `(eups_prod, 0, None)`; on `ProductNotFound` run
`_build_product` giving `(eups_prod, retcode, logfile)` (per
`buildProductFinish`); then tag when `eups_prod is not None and
build_id not in eups_prod.tags` and the tag is truthy
(`_tag_product`'s `if tag:`); report the result; return
`retcode == 0`. `buildId = none` models a falsy `build_id`. -/
def buildProductIfNeeded (buildId : Option String) (beh : UnitBehavior) :
    UnitResult :=
  match beh with
  | .installed prod =>
      { ok := true, retcode := 0, logfile := none,
        line := reportResult 0 none,
        scriptGenerated := false,
        declaredTag := match buildId with
          | some t => decide (t ∉ prod.tags)
          | none => false }
  | .notInstalled code fresh =>
      let bp := buildProductFinish fresh code "_build.log"
      { ok := decide (bp.retcode = 0), retcode := bp.retcode,
        logfile := some bp.logfile,
        line := reportResult bp.retcode (some bp.logfile),
        scriptGenerated := true,
        declaredTag := match bp.eups_prod, buildId with
          | some prod, some t => decide (t ∉ prod.tags)
          | _, _ => false }

/-- State accumulated by `Builder.build` over the loop, plus the list of
products for which a build script was generated (an effect of
`_build_product`, tracked to settle "scripts are never generated" for
unattempted units). -/
structure BuildResult where
  built : List Product
  failed_at : Option Product
  ok : Bool
  scripted : List Product
deriving DecidableEq, Repr

/-- The loop of `Builder.build` (lines 310-315): for each product in
manifest order, run `_build_product_if_needed`; on a falsy return set
`failed_at` and return `False` immediately; otherwise append to
`built`; return `True` when the list is exhausted. `beh` gives each
product's external behavior. -/
def buildLoop (buildId : Option String) (beh : Product → UnitBehavior) :
    List Product → BuildResult
  | [] => { built := [], failed_at := none, ok := true, scripted := [] }
  | p :: ps =>
      let r := buildProductIfNeeded buildId (beh p)
      let sc : List Product := if r.scriptGenerated then [p] else []
      if r.ok then
        let rest := buildLoop buildId beh ps
        { built := p :: rest.built, failed_at := rest.failed_at,
          ok := rest.ok, scripted := sc ++ rest.scripted }
      else
        { built := [], failed_at := some p, ok := false, scripted := sc }

/-- A unit "succeeds" when `_build_product_if_needed` returns `True`. -/
def unitSucceeds (buildId : Option String) (beh : UnitBehavior) : Bool :=
  (buildProductIfNeeded buildId beh).ok

/-- Whether a behavior generates a build script (`_build_product` runs
exactly when `getProduct` raises `ProductNotFound`). -/
def needsBuild : UnitBehavior → Bool
  | .installed _ => false
  | .notInstalled _ _ => true

/-! ## The output-draining loop (`Builder._build_product`, lines 260-275)

The loop polls the child's stdout with `select.select(..., 2)`, reads one
byte when ready, accumulates a line buffer, timestamps and writes a line
on `\n` or end-of-stream, breaks on the zero-length read, and calls
`progress.report_progress()` at the end of every iteration. We model the
child's remaining output as a `List Char`, the sequence of poll outcomes
as a `List Bool` (whether `select` reported the stream ready), and the
wall clock as a function from iteration index to a `Nat` timestamp
(the `datetime.datetime.utcnow()` reading at that iteration). -/

/-- Observable state of the draining loop: the pending line buffer `buf`,
the `(timestamp, line)` pairs written to the log file — modelling
`f"[<utcnow>Z] <buf>"` as the pair of its prefix timestamp and its
content — and the iteration indices at which `report_progress` was
called (`ticks`) and at which a `read(1)` was issued (`reads`). -/
structure TeeState where
  buf : List Char
  log : List (Nat × List Char)
  ticks : List Nat
  reads : List Nat
deriving DecidableEq, Repr

/-- The initial state of the draining loop: `buf = b""`, empty log. -/
def teeInit : TeeState :=
  { buf := [], log := [], ticks := [], reads := [] }

/-- The `while True` loop of `Builder._build_product` (lines 262-275).
Each schedule entry is one iteration's `select` outcome. When ready, one
byte is read (`c`); `buf += c`; if `c` is `\n` (and the buffer, with `c`
appended, is nonempty) the buffered line is written with the current
timestamp and the buffer cleared; if `c` is the zero-length read
(stream exhausted) the (nonempty) buffer is flushed with the current
timestamp and the loop breaks without reaching `report_progress`; every
other iteration ends with a `report_progress` tick. If the schedule runs
out first, the loop is still in flight and the state so far is
returned. -/
def drainLoop (clock : Nat → Nat) :
    List Bool → List Char → Nat → TeeState → TeeState
  | [], _, _, s => s
  | false :: sch, stream, i, s =>
      drainLoop clock sch stream (i + 1) { s with ticks := s.ticks ++ [i] }
  | true :: _, [], i, s =>
      if s.buf = [] then { s with reads := s.reads ++ [i] }
      else { s with reads := s.reads ++ [i],
                    log := s.log ++ [(clock i, s.buf)], buf := [] }
  | true :: sch, c :: rest, i, s =>
      if c = '\n' then
        drainLoop clock sch rest (i + 1)
          { buf := [], log := s.log ++ [(clock i, s.buf ++ [c])],
            ticks := s.ticks ++ [i], reads := s.reads ++ [i] }
      else
        drainLoop clock sch rest (i + 1)
          { buf := s.buf ++ [c], log := s.log,
            ticks := s.ticks ++ [i], reads := s.reads ++ [i] }

/-- Reference description of which iterations call `report_progress`:
every iteration of the loop except the one that observes the
zero-length end-of-stream read (which breaks first). -/
def tickSteps : List Bool → List Char → Nat → List Nat
  | [], _, _ => []
  | false :: sch, stream, i => i :: tickSteps sch stream (i + 1)
  | true :: _, [], _ => []
  | true :: sch, _ :: rest, i => i :: tickSteps sch rest (i + 1)

/-- Reference description of the lines the loop writes for a byte
stream fully drained starting from buffer `buf` at iteration `i` with an
always-ready schedule: split at `\n` (terminator kept), stamp each line
with the clock at the iteration its terminator was read, and flush a
nonempty final partial line with the clock at the end-of-stream
iteration. -/
def stampLines (clock : Nat → Nat) (buf : List Char) (i : Nat) :
    List Char → List (Nat × List Char)
  | [] => if buf = [] then [] else [(clock i, buf)]
  | c :: rest =>
      if c = '\n' then
        (clock i, buf ++ [c]) :: stampLines clock [] (i + 1) rest
      else stampLines clock (buf ++ [c]) (i + 1) rest

/-! ## Tag declaration (`declare_eups_tag`) and tag association -/

/-- The EUPS tag store: the registered tag names
(`eups_obj.tags.getTagNames()`) and the paths to which the global tag
list was persisted (`tags.saveGlobalTags(path)` calls). -/
structure TagStore where
  names : List String
  savedTo : List String
deriving DecidableEq, Repr

/-- `declare_eups_tag` (build.py lines 41-51): if the tag is not among
the registered tag names, register it and persist the global tags to
`eups_obj.path[0]`; otherwise do nothing. -/
def declareEupsTag (tag : String) (store : TagStore) (path0 : String) :
    TagStore :=
  if tag ∈ store.names then store
  else { names := store.names ++ [tag], savedTo := store.savedTo ++ [path0] }

/-- The tag list of one installed product after the association step of
`_build_product_if_needed` (lines 297-298): `self.eups.declare(name,
version, tag)` — modelled as appending the tag to the product's tag
list — runs only when `build_id not in eups_prod.tags`, and
`_tag_product`'s `if tag:` additionally requires a truthy tag. -/
def tagAssociate (buildId : Option String) (prodTags : List String) :
    List String :=
  match buildId with
  | none => prodTags
  | some t => if t ∈ prodTags then prodTags else prodTags ++ [t]

/-! ## Status persistence (`Builder.write_status`, `product_representer`)

`write_status` builds `{"built": self.built}` plus `"failed_at"` only
when `self.failed_at is not None`, and YAML-dumps it; each
`models.Product` is serialized by `product_representer` as the mapping
`{name, sha1, version}` of strings. We model the dumped YAML document as
a tree of scalars, mappings and sequences. -/

/-- A YAML document node as produced by `yaml.dump`. -/
inductive Yaml where
  | str (s : String)
  | seq (xs : List Yaml)
  | map (kvs : List (String × Yaml))

/-- `product_representer` (lines 28-35): a `models.Product` is dumped as
the mapping with keys `name`, `sha1`, `version`. -/
def productRepresenter (p : Product) : Yaml :=
  .map [("name", .str p.name), ("sha1", .str p.sha1),
        ("version", .str p.version)]

/-- `Builder.write_status` (lines 324-333): the document written to
`status.yaml` — the `built` key always, the `failed_at` key only when
`failed_at` is not `None`. -/
def writeStatus (built : List Product) (failed_at : Option Product) :
    Yaml :=
  .map ([("built", .seq (built.map productRepresenter))] ++
    (match failed_at with
     | some p => [("failed_at", productRepresenter p)]
     | none => []))

/-- Modelled from the spec: reloading a build unit from the persisted
status record, recovering its identity by name+version+fingerprint
(sha1). The source has no loader for `status.yaml`; this follows the
spec's round-trip sentence and `product_representer`'s key set. -/
def productFromYaml : Yaml → Option Product
  | .map kvs =>
      match kvs.lookup "name", kvs.lookup "sha1", kvs.lookup "version" with
      | some (.str n), some (.str s), some (.str v) =>
          some { name := n, sha1 := s, version := v }
      | _, _, _ => none
  | _ => none

/-- Modelled from the spec: reloading every build unit of the persisted
`built` sequence, failing if any entry is malformed. -/
def productsFromYaml : List Yaml → Option (List Product)
  | [] => some []
  | y :: ys =>
      match productFromYaml y, productsFromYaml ys with
      | some p, some ps => some (p :: ps)
      | _, _ => none

/-- Modelled from the spec: reloading the persisted status record into
the `built` sequence and the optional `failed_at` unit; the `failed_at`
key may be absent (then `failed_at` is `none`). -/
def loadStatus (doc : Yaml) : Option (List Product × Option Product) :=
  match doc with
  | .map kvs =>
      match kvs.lookup "built" with
      | some (.seq xs) =>
          match productsFromYaml xs with
          | some built =>
              match kvs.lookup "failed_at" with
              | none => some (built, none)
              | some y =>
                  match productFromYaml y with
                  | some p => some (built, some p)
                  | none => none
          | none => none
      | _ => none
  | _ => none

/-! ## The GitHub status notifier and the tail of `Builder.run`

`Builder.post_github_status` (lines 521-565) reads
`os.environ['GITHUB_TOKEN']` and `os.environ['BUILD_URL']` by
subscription — which raises `KeyError` when the variable is absent —
then posts and logs the response. The environment is a partial map; a
raised exception is the `Except.error` branch, carrying the exception's
description. The HTTP response status code of `requests.post` is a
parameter. -/

/-- A process environment: `os.environ` as a partial map. -/
def Env : Type := String → Option String

/-- The PR/CI context loaded from `pr_info.json`: the fields
`post_github_status` reads. -/
structure PrInfo where
  owner : String
  repo : String
  sha : String
deriving DecidableEq, Repr

/-- `Builder.post_github_status` (lines 521-565). Returns the printed
log lines on normal completion, or the uncaught exception.
`os.environ['GITHUB_TOKEN']` raises `KeyError` when the variable is
absent; only a present-but-empty token takes the `if not token:`
logged-return branch. `os.environ['BUILD_URL']` likewise raises when
absent (the `if build_url is None:` check is unreachable, since
subscription never returns `None`). A non-201 response is logged and the
function returns normally. -/
def postGithubStatus (env : Env) (postResponseCode : Int) (pr : PrInfo)
    (state description agent : String) : Except String (List String) :=
  let l0 := ["Posting GitHub status: " ++ state ++ " - " ++ description]
  match env "GITHUB_TOKEN" with
  | none => .error "KeyError: GITHUB_TOKEN"
  | some token =>
      if token = "" then
        .ok (l0 ++ ["GITHUB_TOKEN not found in environment variables."])
      else
        match env "BUILD_URL" with
        | none => .error "KeyError: BUILD_URL"
        | some _ =>
            if postResponseCode = 201 then
              .ok (l0 ++ ["GitHub status posted successfully."])
            else
              .ok (l0 ++ ["Failed to post GitHub status: " ++
                toString postResponseCode])

/-- Outcome of the tail of `Builder.run`: whether `status.yaml` was
written (`b.write_status()`), and the argument of `sys.exit`. -/
structure RunFinish where
  statusWritten : Bool
  exitCode : Nat
deriving DecidableEq, Repr

/-- One `if pr_info and agent != "error": Builder.post_github_status(...)`
guard from `Builder.run` (lines 362-365 and 370-373): skipped entirely
when `pr_info` is absent or the agent label is `"error"`; otherwise an
exception from `post_github_status` propagates. -/
def notifyStep (env : Env) (postResponseCode : Int)
    (pr_info : Option PrInfo) (agent state description : String) :
    Except String Unit :=
  match pr_info with
  | none => .ok ()
  | some pr =>
      if agent = "error" then .ok ()
      else
        match postGithubStatus env postResponseCode pr state description
            agent with
        | .ok _ => .ok ()
        | .error e => .error e

/-- The tail of `Builder.run` (lines 361-376): post the pending status
when `pr_info` is present and the agent label is not `"error"`, run the
build (its boolean result is `buildResult = b.build()`), post the final
status (`"success"` when the build returned `True`, else `"failure"`),
write the status record, and `sys.exit(0 if retcode else 1)`. An
exception raised by a status post propagates out before `write_status`
and `sys.exit` are reached. -/
def runFinish (env : Env) (postResponseCode : Int)
    (pr_info : Option PrInfo) (agent : String) (buildResult : Bool) :
    Except String RunFinish :=
  match notifyStep env postResponseCode pr_info agent "pending"
      ("Build started on " ++ agent) with
  | .error e => .error e
  | .ok _ =>
      match notifyStep env postResponseCode pr_info agent
          (if buildResult then "success" else "failure")
          ("Build " ++ (if buildResult then "succeeded" else "failed") ++
            " on " ++ agent) with
      | .error e => .error e
      | .ok _ =>
          .ok { statusWritten := true,
                exitCode := if buildResult then 0 else 1 }

/-! ## The progress scope (`ProgressReporter.new_build`)

`new_build` is a `@contextlib.contextmanager` generator: it constructs a
`ProductProgressReporter`, calls `_build_started`, yields it, and calls
`_finalize()` after the yield. Python generator semantics: the code
after `yield` runs only when the `with` body completes normally; when
an exception propagates out of the body, `__exit__` throws it into the
generator at the yield point and, with no `try`/`finally` around the
yield, `progress._finalize()` is skipped. The body is modelled as a
function from the reporter state to a normal or raising outcome. -/

/-- The observable `ProductProgressReporter` state: the characters
written to the terminal and the `product` field (`report_result` sets it
to `None`; `_finalize` writes a newline only when it is still set). -/
structure PPRState where
  out : List Char
  product : Option Product
deriving DecidableEq, Repr

/-- How control leaves the `with` body: normal completion with a final
reporter state, or an exception (with the reporter state at the moment
it was raised, since terminal writes already happened). -/
inductive BodyOutcome where
  | normal (s : PPRState)
  | raised (e : String) (s : PPRState)
deriving DecidableEq, Repr

/-- `ProductProgressReporter._build_started` (lines 73-77): writes the
padded product-name prefix and enters the active state. -/
def buildStarted (p : Product) : PPRState :=
  { out := (p.name ++ ": ").toList, product := some p }

/-- `ProductProgressReporter._finalize` (lines 125-129): writes a
newline only when `self.product` is still set (i.e. `report_result` did
not run). -/
def pprFinalize (s : PPRState) : PPRState :=
  match s.product with
  | some _ => { s with out := s.out ++ ['\n'] }
  | none => s

/-- `ProgressReporter.new_build` (lines 134-139) as a generator-based
context manager around a body: start the display, run the body; on
normal completion resume the generator, which runs `_finalize()`; on an
exception the generator is thrown into at the yield and, lacking a
`try`/`finally`, never reaches `_finalize()`, so the exception
propagates with the display state untouched. -/
def newBuild (p : Product) (body : PPRState → BodyOutcome) : BodyOutcome :=
  match body (buildStarted p) with
  | .normal s => .normal (pprFinalize s)
  | .raised e s => .raised e s

/-- Sample product used to instantiate theorems on concrete inputs. -/
def sampleA : Product := ⟨"alpha", "sha-a", "1.0"⟩

/-- Second sample product. -/
def sampleB : Product := ⟨"beta", "sha-b", "2.0"⟩

/-- Third sample product. -/
def sampleC : Product := ⟨"gamma", "sha-c", "3.0"⟩

/-- Sample installed-product handle, already carrying the build tag. -/
def sampleProd : EupsProd := ⟨"/stack/alpha", ["b123"]⟩

/-- Sample freshly built product handle. -/
def sampleFresh : EupsProd := ⟨"/stack/beta", []⟩

/-- Sample world: `alpha` is already installed; everything else needs a
build and exits with code 1. -/
def sampleBeh : Product → UnitBehavior := fun p =>
  if p.name = "alpha" then .installed sampleProd
  else .notInstalled 1 sampleFresh

/-! ## Helper lemmas -/

/-- A build script is generated exactly for the units `getProduct` does
not find. -/
theorem scriptGenerated_eq_needsBuild (buildId : Option String)
    (beh : UnitBehavior) :
    (buildProductIfNeeded buildId beh).scriptGenerated = needsBuild beh := by
  cases beh <;> rfl

/-- Peeling a prefix of succeeding units off the build loop. -/
theorem buildLoop_append_ok (buildId : Option String)
    (beh : Product → UnitBehavior) :
    ∀ (us₁ rest : List Product),
      (∀ u ∈ us₁, unitSucceeds buildId (beh u) = true) →
      (buildLoop buildId beh (us₁ ++ rest)).built
          = us₁ ++ (buildLoop buildId beh rest).built ∧
      (buildLoop buildId beh (us₁ ++ rest)).failed_at
          = (buildLoop buildId beh rest).failed_at ∧
      (buildLoop buildId beh (us₁ ++ rest)).ok
          = (buildLoop buildId beh rest).ok ∧
      (buildLoop buildId beh (us₁ ++ rest)).scripted
          = us₁.filter (fun u => needsBuild (beh u))
              ++ (buildLoop buildId beh rest).scripted := by
  intro us₁
  induction us₁ with
  | nil => intro rest _; simp
  | cons p ps ih =>
      intro rest h
      have hp : unitSucceeds buildId (beh p) = true := h p (by simp)
      have hps : ∀ u ∈ ps, unitSucceeds buildId (beh u) = true :=
        fun u hu => h u (by simp [hu])
      obtain ⟨h1, h2, h3, h4⟩ := ih rest hps
      unfold unitSucceeds at hp
      simp only [List.cons_append, buildLoop, List.append_eq, hp, if_true,
        scriptGenerated_eq_needsBuild, List.filter_cons]
      refine ⟨by rw [h1], by rw [h2], by rw [h3], ?_⟩
      cases hnb : needsBuild (beh p) <;> simp [hnb, h4]

/-! ## Claim theorems -/

/-- C1: For every manifest whose product index yields units in order, if
every unit before `uk` succeeds and `uk`'s build runs and returns a
nonzero exit code, then after `Builder.build()` returns, `built`
contains exactly the preceding units in order, `failed_at` is `uk`, the
return value is `False`, and build scripts were generated only among the
attempted units (the prefix and `uk`) — none for any later unit. -/
theorem build_stops_at_first_failure (buildId : Option String)
    (beh : Product → UnitBehavior) (us₁ us₂ : List Product)
    (uk : Product) (code : Int) (fresh : EupsProd)
    (h₁ : ∀ u ∈ us₁, unitSucceeds buildId (beh u) = true)
    (hk : beh uk = .notInstalled code fresh) (hc : code ≠ 0) :
    (buildLoop buildId beh (us₁ ++ uk :: us₂)).built = us₁ ∧
    (buildLoop buildId beh (us₁ ++ uk :: us₂)).failed_at = some uk ∧
    (buildLoop buildId beh (us₁ ++ uk :: us₂)).ok = false ∧
    (buildLoop buildId beh (us₁ ++ uk :: us₂)).scripted
      = (us₁ ++ [uk]).filter (fun u => needsBuild (beh u)) := by
  obtain ⟨h1, h2, h3, h4⟩ := buildLoop_append_ok buildId beh us₁ (uk :: us₂) h₁
  have hfail : (buildProductIfNeeded buildId (beh uk)).ok = false := by
    rw [hk]
    simp [buildProductIfNeeded, buildProductFinish, hc]
  have hsc : (buildProductIfNeeded buildId (beh uk)).scriptGenerated = true := by
    rw [scriptGenerated_eq_needsBuild, hk]
    rfl
  have hloop : buildLoop buildId beh (uk :: us₂) =
      { built := [], failed_at := some uk, ok := false, scripted := [uk] } := by
    simp [buildLoop, hfail, hsc]
  refine ⟨?_, ?_, ?_, ?_⟩
  · rw [h1, hloop]
    simp
  · rw [h2, hloop]
  · rw [h3, hloop]
  · rw [h4, hloop]
    simp [List.filter_append, hk, needsBuild]

/-- Witness for C1 at a concrete manifest `[alpha, beta, gamma]` where
`alpha` is already installed (succeeds) and `beta`'s build exits 1. -/
theorem build_stops_at_first_failure_witness :
    (∀ u ∈ [sampleA], unitSucceeds (some "b123") (sampleBeh u) = true) ∧
    sampleBeh sampleB = .notInstalled 1 sampleFresh ∧ (1 : Int) ≠ 0 ∧
    ((buildLoop (some "b123") sampleBeh ([sampleA] ++ sampleB :: [sampleC])).built
        = [sampleA] ∧
      (buildLoop (some "b123") sampleBeh ([sampleA] ++ sampleB :: [sampleC])).failed_at
        = some sampleB ∧
      (buildLoop (some "b123") sampleBeh ([sampleA] ++ sampleB :: [sampleC])).ok
        = false ∧
      (buildLoop (some "b123") sampleBeh ([sampleA] ++ sampleB :: [sampleC])).scripted
        = ([sampleA] ++ [sampleB]).filter (fun u => needsBuild (sampleBeh u))) :=
  ⟨by decide, by decide, by decide,
    build_stops_at_first_failure (some "b123") sampleBeh [sampleA] [sampleC]
      sampleB 1 sampleFresh (by decide) (by decide) (by decide)⟩

/-- C9: For a unit the package manager reports as already installed,
`_build_product_if_needed` performs no build: the outcome has exit code
0 and `logfile = None`, the progress display prints the
"(already installed)." line, no build script is generated, the function
returns `True`, and the unit is still appended to `built` by the build
loop. -/
theorem already_installed_unit (buildId : Option String)
    (beh : Product → UnitBehavior) (p : Product) (prod : EupsProd)
    (us₁ us₂ : List Product)
    (hp : beh p = .installed prod)
    (h₁ : ∀ u ∈ us₁, unitSucceeds buildId (beh u) = true) :
    (buildProductIfNeeded buildId (beh p)).retcode = 0 ∧
    (buildProductIfNeeded buildId (beh p)).logfile = none ∧
    (buildProductIfNeeded buildId (beh p)).line = .alreadyInstalled ∧
    (buildProductIfNeeded buildId (beh p)).scriptGenerated = false ∧
    (buildProductIfNeeded buildId (beh p)).ok = true ∧
    p ∈ (buildLoop buildId beh (us₁ ++ p :: us₂)).built := by
  have hsucc : (buildProductIfNeeded buildId (beh p)).ok = true := by
    rw [hp]
    rfl
  refine ⟨by rw [hp]; rfl, by rw [hp]; rfl, by rw [hp]; rfl,
    by rw [hp]; rfl, hsucc, ?_⟩
  obtain ⟨h1, -, -, -⟩ := buildLoop_append_ok buildId beh us₁ (p :: us₂) h₁
  rw [h1]
  simp [buildLoop, hsucc]

/-- Witness for C9 at the concrete already-installed unit `alpha`. -/
theorem already_installed_unit_witness :
    sampleBeh sampleA = .installed sampleProd ∧
    ((buildProductIfNeeded (some "b123") (sampleBeh sampleA)).retcode = 0 ∧
      (buildProductIfNeeded (some "b123") (sampleBeh sampleA)).logfile = none ∧
      (buildProductIfNeeded (some "b123") (sampleBeh sampleA)).line
        = .alreadyInstalled ∧
      (buildProductIfNeeded (some "b123") (sampleBeh sampleA)).scriptGenerated
        = false ∧
      (buildProductIfNeeded (some "b123") (sampleBeh sampleA)).ok = true ∧
      sampleA ∈ (buildLoop (some "b123") sampleBeh ([] ++ sampleA :: [])).built) :=
  ⟨by decide,
    already_installed_unit (some "b123") sampleBeh sampleA sampleProd [] []
      (by decide) (by decide)⟩

/-- C10: After the build script terminates, the log file is copied into
the installed product's directory if and only if the exit code is zero;
on a nonzero exit code no product lookup or copy happens and the
returned handle is `None`, so `_build_product` returns
`(installed_product, 0, logfile)` on success and
`(None, retcode, logfile)` on failure. -/
theorem build_product_finish_cases (prodHandle : EupsProd) (retcode : Int)
    (logfile : String) :
    ((buildProductFinish prodHandle retcode logfile).logCopiedTo
        = some prodHandle.dir ↔ retcode = 0) ∧
    ((buildProductFinish prodHandle retcode logfile).lookupPerformed = true
        ↔ retcode = 0) ∧
    (retcode = 0 → buildProductFinish prodHandle retcode logfile =
      { eups_prod := some prodHandle, retcode := 0, logfile := logfile,
        lookupPerformed := true, logCopiedTo := some prodHandle.dir }) ∧
    (retcode ≠ 0 → buildProductFinish prodHandle retcode logfile =
      { eups_prod := none, retcode := retcode, logfile := logfile,
        lookupPerformed := false, logCopiedTo := none }) := by
  unfold buildProductFinish
  by_cases h : retcode = 0 <;> simp [h]

/-- Witness for C10 at exit codes 0 and 42. -/
theorem build_product_finish_cases_witness :
    (buildProductFinish sampleProd 0 "_build.log").logCopiedTo
      = some sampleProd.dir ∧
    (buildProductFinish sampleFresh 42 "_build.log").eups_prod = none ∧
    (buildProductFinish sampleFresh 42 "_build.log").lookupPerformed = false :=
  ⟨((build_product_finish_cases sampleProd 0 "_build.log").1).mpr rfl,
    by rw [(build_product_finish_cases sampleFresh 42 "_build.log").2.2.2
      (by decide)],
    by rw [(build_product_finish_cases sampleFresh 42 "_build.log").2.2.2
      (by decide)]⟩

/-- C8: Tagging is idempotent at both levels: `declare_eups_tag` is a
no-op when the tag is already registered, registering twice equals
registering once (and the tag is present afterwards), and the per-unit
association step leaves an already-tagged product unchanged, never adds
a duplicate entry, and is idempotent. -/
theorem tagging_idempotent (tag path0 buildId : String) (store : TagStore)
    (prodTags : List String)
    (hs : tag ∈ store.names) (hp : buildId ∈ prodTags) :
    declareEupsTag tag store path0 = store ∧
    (∀ st : TagStore,
      declareEupsTag tag (declareEupsTag tag st path0) path0
        = declareEupsTag tag st path0) ∧
    (∀ st : TagStore, tag ∈ (declareEupsTag tag st path0).names) ∧
    tagAssociate (some buildId) prodTags = prodTags ∧
    (∀ ts : List String,
      tagAssociate (some buildId) (tagAssociate (some buildId) ts)
        = tagAssociate (some buildId) ts) ∧
    (∀ ts : List String,
      (tagAssociate (some buildId) ts).count buildId
        = max (ts.count buildId) 1) := by
  refine ⟨?_, ?_, ?_, ?_, ?_, ?_⟩
  · simp [declareEupsTag, hs]
  · intro st
    unfold declareEupsTag
    by_cases h : tag ∈ st.names <;> simp [h]
  · intro st
    unfold declareEupsTag
    by_cases h : tag ∈ st.names <;> simp [h]
  · simp [tagAssociate, hp]
  · intro ts
    unfold tagAssociate
    by_cases h : buildId ∈ ts <;> simp [h]
  · intro ts
    unfold tagAssociate
    by_cases h : buildId ∈ ts
    · simp only [h, if_true]
      have := List.count_pos_iff.mpr h
      omega
    · have h0 : ts.count buildId = 0 := List.count_eq_zero.mpr h
      simp [h, h0]

/-- Witness for C8 with the tag already registered and the product
already tagged. -/
theorem tagging_idempotent_witness :
    "b123" ∈ (⟨["b123", "current"], ["/stack"]⟩ : TagStore).names ∧
    "b123" ∈ ["b123"] ∧
    declareEupsTag "b123" ⟨["b123", "current"], ["/stack"]⟩ "/stack"
      = ⟨["b123", "current"], ["/stack"]⟩ ∧
    tagAssociate (some "b123") ["b123"] = ["b123"] :=
  ⟨by decide, by decide,
    (tagging_idempotent "b123" "/stack" "b123"
      ⟨["b123", "current"], ["/stack"]⟩ ["b123"] (by decide) (by decide)).1,
    (tagging_idempotent "b123" "/stack" "b123"
      ⟨["b123", "current"], ["/stack"]⟩ ["b123"] (by decide)
      (by decide)).2.2.2.1⟩

/-- Reading a unit back from its `product_representer` serialization
recovers it. -/
theorem productFromYaml_representer (p : Product) :
    productFromYaml (productRepresenter p) = some p := rfl

/-- Reading back a serialized list of units recovers the list. -/
theorem productsFromYaml_representer (l : List Product) :
    productsFromYaml (l.map productRepresenter) = some l := by
  induction l with
  | nil => rfl
  | cons p t ih =>
      simp [productsFromYaml, productFromYaml_representer, ih]

/-- C6: Writing the status record with `write_status` and reloading it
reproduces the same `built` sequence — each unit's identity preserved as
(name, version, sha1) — and the same `failed_at` value, the key being
omitted exactly when `failed_at` is `None`. -/
theorem status_roundtrip (built : List Product)
    (failed_at : Option Product) :
    loadStatus (writeStatus built failed_at) = some (built, failed_at) := by
  cases failed_at with
  | none =>
      simp [writeStatus, loadStatus, List.lookup,
        productsFromYaml_representer]
  | some p =>
      simp [writeStatus, loadStatus, List.lookup,
        productsFromYaml_representer, productFromYaml_representer]

/-- C2: The claim says a notifier failure — including a missing
`GITHUB_TOKEN` — is logged and swallowed and `post_github_status` never
raises. The code contradicts it: `os.environ['GITHUB_TOKEN']` raises
`KeyError` when the variable is absent (the `if not token:` guard only
catches a present-but-empty token, and the dead `if build_url is None:`
check shows `os.environ.get` was intended), and the uncaught exception
escapes `Builder.run` before `write_status`. A failed HTTP post (non-201
response), by contrast, is indeed only logged. -/
theorem post_github_status_keyerror :
    postGithubStatus (fun _ => none) 201 ⟨"lsst", "repo", "abc123"⟩
        "pending" "Build started on agent-1" "agent-1"
      = .error "KeyError: GITHUB_TOKEN" ∧
    postGithubStatus
        (fun k => if k = "GITHUB_TOKEN" then some "tok"
          else if k = "BUILD_URL" then some "https://ci" else none)
        500 ⟨"lsst", "repo", "abc123"⟩ "pending" "Build started on agent-1"
        "agent-1"
      = .ok ["Posting GitHub status: pending - Build started on agent-1",
             "Failed to post GitHub status: 500"] ∧
    runFinish (fun _ => none) 201 (some ⟨"lsst", "repo", "abc123"⟩)
        "agent-1" true
      = .error "KeyError: GITHUB_TOKEN" := by
  refine ⟨rfl, ?_, rfl⟩
  rfl

/-- C5: The claim says every run past the precondition checks exits 0
iff `Builder.build()` returned `True`. That holds when the notifier
steps complete (no `pr_info`, or the agent label is `"error"`, or the
environment carries `GITHUB_TOKEN` and `BUILD_URL`), but when
`pr_info` is present with a valid agent and `GITHUB_TOKEN` is unset,
`run` raises `KeyError` out of the notifier before `sys.exit`, so a
fully successful build does not produce exit code 0 (the interpreter
dies on the uncaught exception and `status.yaml` is never written). -/
theorem run_exit_code_vs_build_result :
    (∀ b : Bool, runFinish (fun _ => none) 201 none "agent-1" b
      = .ok { statusWritten := true, exitCode := if b then 0 else 1 }) ∧
    (∀ b : Bool, runFinish
        (fun k => if k = "GITHUB_TOKEN" then some "tok"
          else if k = "BUILD_URL" then some "https://ci" else none)
        201 (some ⟨"lsst", "repo", "abc123"⟩) "agent-1" b
      = .ok { statusWritten := true, exitCode := if b then 0 else 1 }) ∧
    runFinish (fun _ => none) 201 (some ⟨"lsst", "repo", "abc123"⟩)
        "agent-1" true
      ≠ .ok { statusWritten := true, exitCode := 0 } := by
  refine ⟨fun b => ?_, fun b => ?_, ?_⟩
  · cases b <;> rfl
  · cases b <;> simp [runFinish, notifyStep, postGithubStatus]
  · intro h
    exact absurd h (by simp [runFinish, notifyStep, postGithubStatus])

/-- C3: The claim says that once the progress display enters the active
state, the finalize step runs exactly once however control leaves the
scope. The code contradicts it: `new_build` is a generator-based context
manager with no `try`/`finally` around the `yield`, so when an exception
propagates out of the body, `progress._finalize()` is skipped — against
`_finalize`'s own comment that it exists for the exception path — and
the terminal is left mid-line (no trailing newline, `product` still
set, and running `_finalize` would have changed the state). -/
theorem finalize_skipped_on_exception :
    newBuild sampleA (fun s => .raised "boom" s)
      = .raised "boom" (buildStarted sampleA) ∧
    (buildStarted sampleA).product = some sampleA ∧
    (buildStarted sampleA).out.getLast? ≠ some '\n' ∧
    pprFinalize (buildStarted sampleA) ≠ buildStarted sampleA ∧
    (∀ s : PPRState, newBuild sampleA (fun _ => .normal s)
      = .normal (pprFinalize s)) := by
  refine ⟨rfl, rfl, by decide, by decide, fun s => rfl⟩

/-- C4 counterexample: on a run whose first poll finds output ready and
reads the byte `a`, `report_progress` is still called at the end of that
same iteration — so ticks are not issued only on iterations where no
output became ready. -/
theorem tick_on_read_iteration :
    0 ∈ (drainLoop (fun n => n) [true, true] ['a'] 0 teeInit).reads ∧
    0 ∈ (drainLoop (fun n => n) [true, true] ['a'] 0 teeInit).ticks := by
  decide

/-- C4 amended: `report_progress` is called at the end of every
iteration of the output-draining loop — whether the poll read output or
timed out — except the final iteration, which observes the zero-length
end-of-stream read and breaks before reaching the tick;
`report_progress` itself throttles the display internally. -/
theorem tick_every_iteration (clock : Nat → Nat) :
    ∀ (sch : List Bool) (stream : List Char) (i : Nat) (s : TeeState),
      (drainLoop clock sch stream i s).ticks
        = s.ticks ++ tickSteps sch stream i := by
  intro sch
  induction sch with
  | nil => intro stream i s; simp [drainLoop, tickSteps]
  | cons ready sch ih =>
      intro stream i s
      cases ready with
      | false => simp [drainLoop, tickSteps, ih]
      | true =>
          cases stream with
          | nil =>
              by_cases hb : s.buf = [] <;>
                simp [drainLoop, tickSteps, hb]
          | cons c rest =>
              by_cases hc : c = '\n' <;>
                simp [drainLoop, tickSteps, hc, ih]

/-- The log written by the loop under an always-ready schedule long
enough to reach end-of-stream. -/
theorem drainLoop_replicate_log (clock : Nat → Nat) :
    ∀ (stream : List Char) (i : Nat) (s : TeeState),
      (drainLoop clock (List.replicate (stream.length + 1) true)
          stream i s).log
        = s.log ++ stampLines clock s.buf i stream := by
  intro stream
  induction stream with
  | nil =>
      intro i s
      by_cases hb : s.buf = [] <;>
        simp [List.replicate, drainLoop, stampLines, hb]
  | cons c rest ih =>
      intro i s
      rw [List.replicate_succ]
      by_cases hc : c = '\n' <;>
        simp [drainLoop, stampLines, hc, ih]

/-- Under any poll schedule, the timestamps written to the log are
non-decreasing, provided the clock readings are monotone in the
iteration index. -/
theorem drainLoop_log_pairwise (clock : Nat → Nat) (hm : Monotone clock) :
    ∀ (sch : List Bool) (stream : List Char) (i : Nat) (s : TeeState),
      (∀ t ∈ s.log.map Prod.fst, t ≤ clock i) →
      (s.log.map Prod.fst).Pairwise (· ≤ ·) →
      ((drainLoop clock sch stream i s).log.map Prod.fst).Pairwise
        (· ≤ ·) := by
  intro sch
  induction sch with
  | nil => intro stream i s _ hp; simpa [drainLoop] using hp
  | cons ready sch ih =>
      intro stream i s hinv hp
      have hstep : ∀ t ∈ s.log.map Prod.fst, t ≤ clock (i + 1) :=
        fun t ht => le_trans (hinv t ht) (hm (Nat.le_succ i))
      have hext : ∀ x : List Char,
          ((s.log ++ [(clock i, x)]).map Prod.fst).Pairwise (· ≤ ·) := by
        intro x
        simp only [List.map_append, List.map_cons, List.map_nil]
        rw [List.pairwise_append]
        refine ⟨hp, List.pairwise_singleton _ _, ?_⟩
        intro a ha b hbb
        simp only [List.mem_cons, List.not_mem_nil, or_false] at hbb
        exact hbb ▸ hinv a ha
      have hextinv : ∀ x : List Char,
          ∀ t ∈ ((s.log ++ [(clock i, x)]).map Prod.fst),
            t ≤ clock (i + 1) := by
        intro x t ht
        simp only [List.map_append, List.map_cons, List.map_nil,
          List.mem_append, List.mem_cons, List.not_mem_nil,
          or_false] at ht
        rcases ht with ht | ht
        · exact hstep t ht
        · exact ht ▸ hm (Nat.le_succ i)
      cases ready with
      | false => exact ih stream (i + 1) _ hstep hp
      | true =>
          cases stream with
          | nil =>
              by_cases hb : s.buf = []
              · simpa [drainLoop, hb] using hp
              · simpa [drainLoop, hb] using hext s.buf
          | cons c rest =>
              by_cases hc : c = '\n'
              · simp only [drainLoop, hc, if_pos rfl]
                exact ih rest (i + 1) _ (hextinv (s.buf ++ ['\n']))
                  (hext (s.buf ++ ['\n']))
              · simp only [drainLoop, if_neg hc]
                exact ih rest (i + 1) _ hstep hp

/-- Concatenating the logged line contents reproduces the whole byte
stream: no byte, including a final unterminated line, is lost. -/
theorem stampLines_join (clock : Nat → Nat) :
    ∀ (stream : List Char) (buf : List Char) (i : Nat),
      ((stampLines clock buf i stream).map Prod.snd).flatten
        = buf ++ stream := by
  intro stream
  induction stream with
  | nil =>
      intro buf i
      by_cases hb : buf = [] <;> simp [stampLines, hb]
  | cons c rest ih =>
      intro buf i
      by_cases hc : c = '\n' <;>
        simp [stampLines, hc, ih]

/-- C7: Under a schedule that drains the whole stream, every log line is
the pair of the clock reading at the iteration where its terminator (or
end-of-stream) was observed and the line's content, the concatenation
of the logged lines reproduces the entire stream (so a final partial
line without a trailing newline is still written at the zero-length
end-of-stream read), and under every poll schedule the timestamp
prefixes are monotonically non-decreasing down the file whenever the
clock readings are monotone. -/
theorem log_tee_timestamps (clock : Nat → Nat) (hm : Monotone clock)
    (stream : List Char) (sch : List Bool) :
    (drainLoop clock (List.replicate (stream.length + 1) true)
        stream 0 teeInit).log
      = stampLines clock [] 0 stream ∧
    ((drainLoop clock (List.replicate (stream.length + 1) true)
        stream 0 teeInit).log.map Prod.snd).flatten = stream ∧
    ((drainLoop clock sch stream 0 teeInit).log.map Prod.fst).Pairwise
      (· ≤ ·) := by
  refine ⟨?_, ?_, ?_⟩
  · simpa [teeInit] using drainLoop_replicate_log clock stream 0 teeInit
  · rw [drainLoop_replicate_log clock stream 0 teeInit]
    simp [teeInit, stampLines_join]
  · exact drainLoop_log_pairwise clock hm sch stream 0 teeInit
      (by simp [teeInit]) (by simp [teeInit])

/-- Witness for C7 on the stream `ok\ne` (final line unterminated), the
clock reading twice the iteration index, and a schedule with a timeout
in the middle. -/
theorem log_tee_timestamps_witness :
    Monotone (fun n : Nat => 2 * n) ∧
    ((drainLoop (fun n : Nat => 2 * n)
        (List.replicate (['o', 'k', '\n', 'e'].length + 1) true)
        ['o', 'k', '\n', 'e'] 0 teeInit).log
      = stampLines (fun n : Nat => 2 * n) [] 0 ['o', 'k', '\n', 'e'] ∧
    ((drainLoop (fun n : Nat => 2 * n)
        (List.replicate (['o', 'k', '\n', 'e'].length + 1) true)
        ['o', 'k', '\n', 'e'] 0 teeInit).log.map Prod.snd).flatten
      = ['o', 'k', '\n', 'e'] ∧
    ((drainLoop (fun n : Nat => 2 * n) [true, false, true]
        ['o', 'k', '\n', 'e'] 0 teeInit).log.map Prod.fst).Pairwise
      (· ≤ ·)) :=
  ⟨fun _ _ h => Nat.mul_le_mul_left 2 h,
    log_tee_timestamps (fun n : Nat => 2 * n)
      (fun _ _ h => Nat.mul_le_mul_left 2 h)
      ['o', 'k', '\n', 'e'] [true, false, true]⟩

end LsstBuild
